/-
Verification of the YAML-driven form builder and API service wrapper.

The development shallowly embeds, in Lean 4:
  * the API request pipeline of `src/api/ApiServiceProvider.tsx`
    (`validateData`, `findEndpoint`, the in-memory cache, `retryRequest`
    and the core `request` handler), and
  * the validation-rule compiler of `src/components/FormBuilder.tsx`
    (`getValidationRules` for the react-hook-form rule objects and the
    string/date-range branches of `buildZodSchema`).

JavaScript values flowing through the API layer are modelled by the
inductive `JValue` (null, booleans, numbers as rationals, strings and
objects as ordered association lists).  An absent object property (JS
`undefined`) is modelled by `Option.none` at the use sites.  Network
dispatch is modelled by an oracle `net : Nat → FetchOutcome` giving the
outcome of the i-th attempt; the returned `attempts` count of a request
records how many network dispatches occurred.
-/
import Mathlib

namespace ConexForm

/-- JSON-ish JavaScript values: null, booleans, numbers (JS numbers are
modelled as rationals; NaN and infinities are out of scope), strings and
objects as ordered key/value lists. -/
inductive JValue where
  | null : JValue
  | bool : Bool → JValue
  | num : Rat → JValue
  | str : String → JValue
  | obj : List (String × JValue) → JValue

/-- A request payload: a JS object, i.e. an ordered key/value list. -/
abbrev Payload := List (String × JValue)

/-- Property lookup `o[key]`; `none` models JS `undefined` (absent key). -/
def jLookup (o : Payload) (key : String) : Option JValue :=
  match o with
  | [] => none
  | (k, v) :: rest => if k = key then some v else jLookup rest key

/-- JavaScript truthiness of a `JValue` (`{}` is truthy, `0`, `""`,
`null`, `false` are falsy). -/
def JValue.truthy : JValue → Bool
  | .null => false
  | .bool b => b
  | .num q => q ≠ 0
  | .str s => s ≠ ""
  | .obj _ => true

/-- `typeof v === "number"`. -/
def JValue.isNum : JValue → Bool
  | .num _ => true
  | _ => false

/-- `typeof v === "string"`. -/
def JValue.isStr : JValue → Bool
  | .str _ => true
  | _ => false

/-- JS `a || b` on an optional string: an absent or empty message falls
back to the default (empty strings are falsy in JS). -/
def jsOrS (m : Option String) (dflt : String) : String :=
  match m with
  | some s => if s = "" then dflt else s
  | none => dflt

/-- Rendering of a JS number for messages and `JSON.stringify` cache
keys.  Integral rationals print their integer; the (claim-irrelevant)
decimal rendering of non-integral numbers is abbreviated to `num/den`:
key claims depend only on the rendering being a function of the
value. -/
def ratToString (q : Rat) : String :=
  if q.den = 1 then toString q.num else toString q.num ++ "/" ++ toString q.den

/-- Decimal digit run to a natural number. -/
def digitsVal (l : List Char) : Nat :=
  l.foldl (fun acc c => acc * 10 + (c.toNat - 48)) 0

/-- `Number(s)` for the string inputs the repository feeds it: optional
sign, decimal digits, optional fractional part; the empty/whitespace
string converts to 0; anything else is NaN, modelled as `none`.
(Exponents, hex literals and `Infinity` are outside the scope of the
claims.)  Both validator layers apply this one conversion, mirroring the
single JS `Number` used on both sides of the source. -/
def jsNum (s : String) : Option Rat :=
  let t := s.trim
  if t = "" then some 0
  else
    let (sgn, rest) : Int × List Char :=
      match t.data with
      | '-' :: r => (-1, r)
      | '+' :: r => (1, r)
      | r => (1, r)
    let intPart := rest.takeWhile Char.isDigit
    let rest2 := rest.dropWhile Char.isDigit
    match rest2 with
    | [] => if intPart.isEmpty then none else some ((sgn * digitsVal intPart : Int) : Rat)
    | '.' :: fr =>
      if fr.all Char.isDigit && !(intPart.isEmpty && fr.isEmpty) then
        some ((sgn : Rat) * ((digitsVal intPart : Rat) + (digitsVal fr : Rat) / ((10 : Rat) ^ fr.length)))
      else none
    | _ => none

/-- `Number.isInteger(Number(s))`. -/
def jsIsInteger (s : String) : Bool :=
  match jsNum s with
  | some q => q.den = 1
  | none => false

/-- `Number(s) >= g` (false when `Number(s)` is NaN). -/
def jsGe (s : String) (g : Int) : Bool :=
  match jsNum s with
  | some q => decide (q ≥ (g : Rat))
  | none => false

/-- `Number(s) <= g` (false when `Number(s)` is NaN). -/
def jsLe (s : String) (g : Int) : Bool :=
  match jsNum s with
  | some q => decide (q ≤ (g : Rat))
  | none => false

/-- JS string comparison `a <= b`: lexicographic on code units
(identical to Lean's order on the ASCII date strings in play). -/
def charListLe : List Char → List Char → Bool
  | [], _ => true
  | _ :: _, [] => false
  | a :: as, b :: bs => if a = b then charListLe as bs else decide (a.toNat < b.toNat)

/-- JS `a <= b` on strings. -/
def strLe (a b : String) : Bool := charListLe a.data b.data

/-- Characters allowed inside the email regex character class
`[^@\s]` / `[^\s@]`: everything but `@` and whitespace. -/
def noAtWs (l : List Char) : Bool :=
  l.all (fun c => c ≠ '@' && !c.isWhitespace)

/-- Splits a character list at every occurrence of `c` (the pieces do
not contain `c`). -/
def splitAtChar (c : Char) : List Char → List (List Char)
  | [] => [[]]
  | x :: xs =>
    let r := splitAtChar c xs
    if x = c then [] :: r
    else
      match r with
      | h :: t => (x :: h) :: t
      | [] => [[x]]

/-- Whether a `'.'` occurs after the first character with at least one
character following it. -/
def dotThenMore : List Char → Bool
  | [] => false
  | c :: rest => (c = '.' && !rest.isEmpty) || dotThenMore rest

/-- Whether the list has a `'.'` at some interior position (non-empty
text on both sides). -/
def interiorDot : List Char → Bool
  | [] => false
  | _ :: rest => dotThenMore rest

/-- The test of `/^[^@\s]+@[^@\s]+\.[^@\s]+$/`, the hand-rolled email
regex that the form-state rule layer (`getValidationRules`) and the API
payload validator (`validateData`) both use: exactly one `@` with a
non-empty `@`/whitespace-free local part, and a domain part containing
a dot with non-empty text on both sides.  The schema layer's
`.email()` uses a different, stricter pattern, modelled separately by
`zodEmailTest`. -/
def emailTest (s : String) : Bool :=
  match splitAtChar '@' s.data with
  | [a, r] => !a.isEmpty && noAtWs a && noAtWs r && interiorDot r
  | _ => false

/-- Whether `".."` occurs in the list (the `(?!.*\.\.)` lookahead of
Zod's email regex). -/
def hasDoubleDot : List Char → Bool
  | [] => false
  | '.' :: '.' :: _ => true
  | _ :: rest => hasDoubleDot rest

/-- The character class `[A-Z0-9_'+\-\.]` (case-insensitive) of the
local part of Zod's email regex; 39 is the apostrophe. -/
def zodLocalClass (c : Char) : Bool :=
  c.isAlphanum || c = '_' || c.toNat = 39 || c = '+' || c = '-' || c = '.'

/-- The character class `[A-Z0-9_+-]` (case-insensitive) required of
the final local-part character. -/
def zodLocalLastClass (c : Char) : Bool :=
  c.isAlphanum || c = '_' || c = '+' || c = '-'

/-- The local part `([A-Z0-9_'+\-\.]*)[A-Z0-9_+-]`: non-empty, every
character in the local class, the last in the narrower class. -/
def zodLocalOk (l : List Char) : Bool :=
  !l.isEmpty && l.dropLast.all zodLocalClass &&
    (match l.getLast? with
     | some c => zodLocalLastClass c
     | none => false)

/-- One domain label `[A-Z0-9][A-Z0-9\-]*`: alphanumeric head, then
alphanumerics or hyphens. -/
def zodLabelOk : List Char → Bool
  | [] => false
  | c :: rest => c.isAlphanum && rest.all (fun d => d.isAlphanum || d = '-')

/-- The trailing `[A-Z]{2,}` top-level-domain part. -/
def zodTldOk (l : List Char) : Bool :=
  decide (2 ≤ l.length) && l.all Char.isAlpha

/-- The test of Zod's `z.string().email()` check, from Zod's email
regex `(?!\.)(?!.*\.\.)([A-Z0-9_'+\-\.]*)[A-Z0-9_+-]@([A-Z0-9][A-Z0-9\-]*\.)+[A-Z]{2,}`
anchored and case-insensitive: no leading dot, no `".."` anywhere, a
non-empty local part over the allowed class ending in the narrower
class, one `@`, then one or more alphanumeric-headed labels and an
alphabetic TLD of length at least two.  Deliberately a different
predicate from the rule layer's `emailTest`: the two layers' email
checks differ in the program (for example `"a@b..c"` passes the
hand-rolled regex but fails `.email()`). -/
def zodEmailTest (s : String) : Bool :=
  let cs := s.data
  (match cs with
   | '.' :: _ => false
   | _ => true) &&
  !hasDoubleDot cs &&
  (match splitAtChar '@' cs with
   | [localPart, domain] =>
     zodLocalOk localPart &&
     (let parts := splitAtChar '.' domain
      decide (2 ≤ parts.length) &&
      parts.dropLast.all zodLabelOk &&
      (match parts.getLast? with
       | some tld => zodTldOk tld
       | none => false))
   | _ => false)

/-! ## API service model (`src/api/ApiServiceProvider.tsx`) -/

/-- Per-rule error-message overrides of a request-schema field
(`rules.validations.errorMessages`). -/
structure ApiErrorMessages where
  required : Option String := none
  minLength : Option String := none
  maxLength : Option String := none
  email : Option String := none
  minValue : Option String := none

/-- The `validations` sub-object of a request-schema field. -/
structure ApiFieldValidations where
  minLength : Option Int := none
  maxLength : Option Int := none
  email : Bool := false
  minValue : Option Rat := none
  errorMessages : ApiErrorMessages := {}

/-- One request-schema field (`requestSchema[key]`): `required` flag,
`valueType` string and optional nested `validations`. -/
structure ApiFieldRules where
  required : Bool := false
  valueType : Option String := none
  validations : Option ApiFieldValidations := none

/-- A request schema: ordered field name → rules map. -/
abbrev ApiSchema := List (String × ApiFieldRules)

/-- `value === undefined || value === null || value === ""`, the
emptiness test of the `required` rule in `validateData`. -/
def isMissing : Option JValue → Bool
  | none => true
  | some .null => true
  | some (.str "") => true
  | _ => false

/-- The errors `validateData` accumulates for one schema field, in the
source's rule order: required, integer type, string type, then the
nested validations (minLength, maxLength, email, minValue).  `value` is
`data[key]`, with `none` for an absent property. -/
def fieldErrors (key : String) (rules : ApiFieldRules) (value : Option JValue) :
    List String :=
  (if rules.required && isMissing value then
    [jsOrS (match rules.validations with
            | some vs => vs.errorMessages.required
            | none => none) (key ++ " is required")]
  else []) ++
  (if rules.valueType = some "integer" && value.isSome &&
      !((value.map JValue.isNum).getD false) then
    [(key ++ " must be an integer")]
  else []) ++
  (if rules.valueType = some "string" && value.isSome &&
      !((value.map JValue.isStr).getD false) then
    [(key ++ " must be a string")]
  else []) ++
  (match rules.validations with
  | none => []
  | some vs =>
    (match vs.minLength, value with
    | some n, some (.str s) =>
      if n ≠ 0 && decide ((s.length : Int) < n) then
        [jsOrS vs.errorMessages.minLength (key ++ " must be at least " ++ toString n ++ " characters")]
      else []
    | _, _ => []) ++
    (match vs.maxLength, value with
    | some n, some (.str s) =>
      if n ≠ 0 && decide ((s.length : Int) > n) then
        [jsOrS vs.errorMessages.maxLength (key ++ " must be at most " ++ toString n ++ " characters")]
      else []
    | _, _ => []) ++
    (match value with
    | some (.str s) =>
      if vs.email && !emailTest s then
        [jsOrS vs.errorMessages.email (key ++ " is not a valid email")]
      else []
    | _ => []) ++
    (match vs.minValue, value with
    | some m, some (.num q) =>
      if q < m then [jsOrS vs.errorMessages.minValue (key ++ " must be at least " ++ ratToString m)]
      else []
    | _, _ => []))

/-- `validateData(data, schema)`: walks the schema fields in order and
collects their errors; an absent schema validates everything. -/
def validateData (data : Payload) (schema : Option ApiSchema) :
    Bool × List String :=
  match schema with
  | none => (true, [])
  | some s =>
    let errors := (s.map (fun (k, rules) => fieldErrors k rules (jLookup data k))).flatten
    (errors.isEmpty, errors)

/-- An API endpoint descriptor parsed from the YAML catalog. -/
structure ApiEndpointConfig where
  endpointName : String
  url : String
  method : String
  requiresAuth : Option Bool := none
  retry : Option Nat := none
  mock : Option Bool := none
  cache : Option Bool := none
  requestSchema : Option ApiSchema := none

/-- The endpoint catalog held by the provider. -/
structure ApiServiceConfig where
  conexResourceId : String := ""
  serviceName : String := ""
  serviceTitle : String := ""
  serviceDescription : String := ""
  endpoints : List ApiEndpointConfig

/-- Per-call request options (`onComplete` is invoked with the same
envelopes the call resolves with and is not modelled separately). -/
structure ApiRequestOptions where
  useMock : Option Bool := none
  useCache : Option Bool := none

/-- The uniform result envelope every API call resolves to. -/
structure ApiResult where
  success : Bool
  data : Option JValue := none
  error : Option String := none
  status : Option Nat := none

/-- `config?.endpoints.find(ep => ep.endpointName === endpointName)`. -/
def findEndpoint (config : Option ApiServiceConfig) (endpointName : String) :
    Option ApiEndpointConfig :=
  match config with
  | none => none
  | some c => c.endpoints.find? (fun ep => ep.endpointName = endpointName)

/-- Truthiness of an optional per-call flag (`options?.useMock` etc.):
absent options or an absent flag are falsy. -/
def optFlag (options : Option ApiRequestOptions) (f : ApiRequestOptions → Option Bool) :
    Bool :=
  match options with
  | none => false
  | some o => (f o).getD false

mutual

/-- `JSON.stringify` on the modelled values (string escaping of special
characters is not modelled; no claim exercises it). -/
def jsonStringify : JValue → String
  | .null => "null"
  | .bool b => cond b "true" "false"
  | .num q => ratToString q
  | .str s => "\"" ++ s ++ "\""
  | .obj fs => "\x7b" ++ String.intercalate "," (jsonFields fs) ++ "\x7d"

/-- Field list of `JSON.stringify` of an object. -/
def jsonFields : List (String × JValue) → List String
  | [] => []
  | (k, v) :: rest => ("\"" ++ k ++ "\":" ++ jsonStringify v) :: jsonFields rest

end

/-- The cache key `` `${endpointName}:${JSON.stringify(payload)}` ``
(an omitted payload stringifies to `undefined` inside the template
literal). -/
def cacheKey (endpointName : String) (payload : Option Payload) : String :=
  endpointName ++ ":" ++
    (match payload with
    | some p => jsonStringify (.obj p)
    | none => "undefined")

/-- The process-wide in-memory cache `apiCache`. -/
abbrev CacheT := List (String × JValue)

/-- `apiCache[key] = v` (overwrite or append). -/
def cacheInsert (c : CacheT) (key : String) (v : JValue) : CacheT :=
  match c with
  | [] => [(key, v)]
  | (k, w) :: rest => if k = key then (key, v) :: rest else (k, w) :: cacheInsert rest key v

/-- The outcome the transport hands back for one attempt: a response
with a status and parsed JSON body (a body that fails to parse arrives
as the degraded `{}`), or a thrown transport error. -/
inductive FetchOutcome where
  | resp : Nat → JValue → FetchOutcome
  | raise : String → FetchOutcome

/-- `data?.message` of a non-2xx response body when it is a truthy
string (non-string `message` values are not modelled; no claim
exercises them). -/
def respMessage : JValue → Option String
  | .obj fs =>
    match jLookup fs "message" with
    | some (.str m) => if m = "" then none else some m
    | _ => none
  | _ => none

/-- `response.ok`: a 2xx status. -/
def statusOk (s : Nat) : Bool :=
  decide (200 ≤ s) && decide (s < 300)

/-- The envelope one `doFetch` attempt resolves with, as a function of
the transport outcome: success envelopes carry data and status, non-2xx
responses carry the server message (or a generic status-coded one) and
the status, thrown errors carry the error message. -/
def fetchEnvelope : FetchOutcome → ApiResult
  | .resp s d =>
    if statusOk s then { success := true, data := some d, status := some s }
    else { success := false, error := some (jsOrS (respMessage d) s!"API error: {s}"), status := some s }
  | .raise m => { success := false, error := some m }

/-- One `doFetch` attempt: resolves to `fetchEnvelope` of the i-th
transport outcome and, on a 2xx response when the cache condition
holds, writes the parsed body into the cache. -/
def doFetch (cacheCond : Bool) (key : String) (net : Nat → FetchOutcome) (i : Nat)
    (c : CacheT) : ApiResult × CacheT :=
  match net i with
  | .resp s d =>
    if statusOk s then
      ({ success := true, data := some d, status := some s },
       if cacheCond then cacheInsert c key d else c)
    else
      ({ success := false, error := some (jsOrS (respMessage d) s!"API error: {s}"),
         status := some s }, c)
  | .raise m => ({ success := false, error := some m }, c)

/-- The amount a request resolves to in the model: the envelope, the
number of network attempts dispatched, and the cache afterwards. -/
structure ReqOutcome where
  result : ApiResult
  attempts : Nat
  cache : CacheT

/-- The loop of `retryRequest(fn, retries)`: `remaining` iterations left
of the `for (let i = 0; i <= retries; i++)` loop, `i` the next attempt
index, `lastError` the envelope of the last failed attempt.  Stops on
the first success and otherwise returns the last failure. -/
def retryRequest (cacheCond : Bool) (key : String) (net : Nat → FetchOutcome) :
    Nat → Nat → ApiResult → CacheT → ReqOutcome
  | 0, i, lastErr, c => ⟨lastErr, i, c⟩
  | remaining + 1, i, _lastError, c =>
    let (res, c') := doFetch cacheCond key net i c
    if res.success then ⟨res, i + 1, c'⟩
    else retryRequest cacheCond key net remaining (i + 1) res c'

/-- The mock short-circuit condition
`options?.useMock || endpoint.mock`. -/
def mockCond (options : Option ApiRequestOptions) (ep : ApiEndpointConfig) : Bool :=
  optFlag options (·.useMock) || ep.mock.getD false

/-- The cache condition
`(options?.useCache || endpoint.cache) && method === "GET"`. -/
def cacheCond (options : Option ApiRequestOptions) (ep : ApiEndpointConfig)
    (method : String) : Bool :=
  (optFlag options (·.useCache) || ep.cache.getD false) && method = "GET"

/-- The cache-hit test `if (apiCache[cacheKey])`: the cached value when
the cache condition holds, the key is present and the value is truthy;
otherwise `none`. -/
def cacheHitValue (cache : CacheT) (cond : Bool) (key : String) : Option JValue :=
  if cond then
    match jLookup cache key with
    | some v => if v.truthy then some v else none
    | none => none
  else none

/-- The mock response object `{ mock: true, endpoint: endpointName,
payload }` (an omitted payload surfaces as a null payload property). -/
def mockData (endpointName : String) (payload : Option Payload) : JValue :=
  .obj [("mock", .bool true), ("endpoint", .str endpointName),
        ("payload", match payload with | some p => .obj p | none => .null)]

/-- The network dispatch stage of `request`:
`endpoint.retry ? await retryRequest(doFetch, endpoint.retry) : await doFetch()`
(a zero or absent `retry` is falsy, so a single attempt runs). -/
def networkStage (cond : Bool) (key : String) (net : Nat → FetchOutcome)
    (retry : Option Nat) (cache : CacheT) : ReqOutcome :=
  match retry with
  | some n =>
    if n = 0 then
      let (res, c') := doFetch cond key net 0 cache
      ⟨res, 1, c'⟩
    else
      retryRequest cond key net (n + 1) 0
        { success := false, error := some "Unknown error" } cache
  | none =>
    let (res, c') := doFetch cond key net 0 cache
    ⟨res, 1, c'⟩

/-- The core `request` handler: endpoint lookup, payload validation,
mock short-circuit, GET cache short-circuit, then network dispatch
(wrapped in `retryRequest` when the endpoint's `retry` is truthy).
URL building and header injection do not affect any modelled observable
and are absorbed into the `net` oracle. -/
def request (config : Option ApiServiceConfig) (cache : CacheT)
    (net : Nat → FetchOutcome) (endpointName : String) (method : String)
    (payload : Option Payload) (options : Option ApiRequestOptions) : ReqOutcome :=
  match findEndpoint config endpointName with
  | none =>
    ⟨{ success := false, error := some s!"Endpoint \"{endpointName}\" not found in configuration" },
     0, cache⟩
  | some ep =>
    let validation := validateData (payload.getD []) ep.requestSchema
    if !validation.1 then
      ⟨{ success := false,
         error := some ("Validation failed: " ++ String.intercalate ", " validation.2) },
       0, cache⟩
    else if mockCond options ep then
      ⟨{ success := true, data := some (mockData endpointName payload) }, 0, cache⟩
    else
      let key := cacheKey endpointName payload
      match cacheHitValue cache (cacheCond options ep method) key with
      | some v => ⟨{ success := true, data := some v }, 0, cache⟩
      | none => networkStage (cacheCond options ep method) key net ep.retry cache

/-! ## Validation rule compiler (`src/components/FormBuilder.tsx`) -/

/-- The `errorMessages` map of a control's validation block. -/
structure ErrorMessages where
  required : Option String := none
  email : Option String := none
  minLength : Option String := none
  maxLength : Option String := none
  pattern : Option String := none
  onlyInteger : Option String := none
  greaterThanOrEqualTo : Option String := none
  lessThanOrEqualTo : Option String := none
  minDate : Option String := none
  maxDate : Option String := none
  range : Option String := none

/-- The `numericality` sub-block. -/
structure Numericality where
  onlyInteger : Bool := false
  greaterThanOrEqualTo : Option Int := none
  lessThanOrEqualTo : Option Int := none

/-- A control's declarative `validations` block.  A compiled regex
(`new RegExp(v.pattern)`) is modelled by its match predicate
`String → Bool`; an invalid pattern — which both layers skip via
`try/catch` — is modelled by `none`, as is an absent or empty (falsy)
pattern string. -/
structure Validations where
  required : Bool := false
  email : Bool := false
  minLength : Option Int := none
  maxLength : Option Int := none
  pattern : Option (String → Bool) := none
  numericality : Option Numericality := none
  minDate : Option String := none
  maxDate : Option String := none
  errorMessages : ErrorMessages := {}

/-- The per-field rule object `getValidationRules` builds for
react-hook-form: at most one entry per rule slot, each carrying its
validator datum and message.  The numericality checks are entries of
the `validate` map. -/
structure RhfRules where
  required : Option String := none
  pattern : Option ((String → Bool) × String) := none
  minLength : Option (Int × String) := none
  maxLength : Option (Int × String) := none
  onlyInteger : Option String := none
  gte : Option (Int × String) := none
  lte : Option (Int × String) := none

/-- The `rules.required` assignment: message override or the default
(with trailing period). -/
def buildRequiredRule (required : Bool) (msg : Option String) : Option String :=
  if required then some (jsOrS msg "This field is required.") else none

/-- The single `rules.pattern` slot: the `email` rule writes the email
regex into it, and a later `pattern` rule assignment overwrites that
same slot, as in the source. -/
def buildPatternRule (em : Bool) (pat : Option (String → Bool))
    (msgE msgP : Option String) : Option ((String → Bool) × String) :=
  let patternEmail : Option ((String → Bool) × String) :=
    if em then some (emailTest, jsOrS msgE "Invalid email address.") else none
  match pat with
  | some p => some (p, jsOrS msgP "Invalid format.")
  | none => patternEmail

/-- The `rules.minLength` assignment (guarded by
`typeof v.minLength === "number" && v.minLength > 0`). -/
def buildMinLenRule (minL : Option Int) (msg : Option String) : Option (Int × String) :=
  match minL with
  | some n => if n > 0 then some (n, jsOrS msg s!"Minimum length is {n}") else none
  | none => none

/-- The `rules.maxLength` assignment (same guard shape). -/
def buildMaxLenRule (maxL : Option Int) (msg : Option String) : Option (Int × String) :=
  match maxL with
  | some n => if n > 0 then some (n, jsOrS msg s!"Maximum length is {n}") else none
  | none => none

/-- The `validate.onlyInteger` entry (present when the numericality
block sets `onlyInteger`). -/
def buildOnlyIntegerRule (nume : Option Numericality) (msg : Option String) :
    Option String :=
  match nume with
  | some nu => if nu.onlyInteger then some (jsOrS msg "Must be an integer.") else none
  | none => none

/-- The `validate.greaterThanOrEqualTo` entry (guarded by
`typeof g === "number" && g !== 0`). -/
def buildGteRule (nume : Option Numericality) (msg : Option String) :
    Option (Int × String) :=
  match nume with
  | some nu =>
    match nu.greaterThanOrEqualTo with
    | some g => if g ≠ 0 then some (g, jsOrS msg s!"Must be >= {g}") else none
    | none => none
  | none => none

/-- The `validate.lessThanOrEqualTo` entry (same guard shape). -/
def buildLteRule (nume : Option Numericality) (msg : Option String) :
    Option (Int × String) :=
  match nume with
  | some nu =>
    match nu.lessThanOrEqualTo with
    | some g => if g ≠ 0 then some (g, jsOrS msg s!"Must be <= {g}") else none
    | none => none
  | none => none

/-- `getValidationRules(control)`: the form-state layer's rule object,
assembled slot by slot as the source's sequential assignments do. -/
def getValidationRules (v : Validations) : RhfRules :=
  let msgs := v.errorMessages
  { required := buildRequiredRule v.required msgs.required,
    pattern := buildPatternRule v.email v.pattern msgs.email msgs.pattern,
    minLength := buildMinLenRule v.minLength msgs.minLength,
    maxLength := buildMaxLenRule v.maxLength msgs.maxLength,
    onlyInteger := buildOnlyIntegerRule v.numericality msgs.onlyInteger,
    gte := buildGteRule v.numericality msgs.greaterThanOrEqualTo,
    lte := buildLteRule v.numericality msgs.lessThanOrEqualTo }

/-- Outcome of the `minLength` rule slot on a value. -/
def ruleMinLenOk (rule : Option (Int × String)) (s : String) : Bool :=
  match rule with
  | some x => decide ((s.length : Int) ≥ x.1)
  | none => true

/-- Outcome of the `maxLength` rule slot on a value. -/
def ruleMaxLenOk (rule : Option (Int × String)) (s : String) : Bool :=
  match rule with
  | some x => decide ((s.length : Int) ≤ x.1)
  | none => true

/-- Outcome of the `pattern` rule slot on a value. -/
def rulePatternOk (rule : Option ((String → Bool) × String)) (s : String) : Bool :=
  match rule with
  | some x => x.1 s
  | none => true

/-- Outcome of the `validate` map entries on a value (the numericality
checks, which run on every value). -/
def ruleValidateOk (onlyInteger : Option String) (gte lte : Option (Int × String))
    (s : String) : Bool :=
  (match onlyInteger with
   | some _ => jsIsInteger s
   | none => true) &&
  (match gte with
   | some x => jsGe s x.1
   | none => true) &&
  (match lte with
   | some x => jsLe s x.1
   | none => true)

/-- Whether a string value passes a react-hook-form rule object, per
react-hook-form's documented field-validation semantics: `required`
fails on the empty value; the `minLength`/`maxLength`/`pattern` rules
are skipped for an empty value; the `validate` functions always run. -/
def rhfPasses (r : RhfRules) (s : String) : Bool :=
  let isEmpty := s = ""
  (!(r.required.isSome && isEmpty)) &&
  (isEmpty || ruleMinLenOk r.minLength s) &&
  (isEmpty || ruleMaxLenOk r.maxLength s) &&
  (isEmpty || rulePatternOk r.pattern s) &&
  ruleValidateOk r.onlyInteger r.gte r.lte s

/-- Outcome of the schema layer's `min(minLength)` check (added under
the same `typeof === "number" && > 0` guard). -/
def zodMinLenOk (minL : Option Int) (s : String) : Bool :=
  match minL with
  | some n => if n > 0 then decide ((s.length : Int) ≥ n) else true
  | none => true

/-- Outcome of the schema layer's `max(maxLength)` check. -/
def zodMaxLenOk (maxL : Option Int) (s : String) : Bool :=
  match maxL with
  | some n => if n > 0 then decide ((s.length : Int) ≤ n) else true
  | none => true

/-- Outcome of the schema layer's three numericality refinements
(`onlyInteger`, `greaterThanOrEqualTo`, `lessThanOrEqualTo`), each
added under the source's guard. -/
def zodNumericalityOk (nume : Option Numericality) (s : String) : Bool :=
  (match nume with
   | some nu => !nu.onlyInteger || jsIsInteger s
   | none => true) &&
  (match nume with
   | some nu =>
     match nu.greaterThanOrEqualTo with
     | some g => if g ≠ 0 then jsGe s g else true
     | none => true
   | none => true) &&
  (match nume with
   | some nu =>
     match nu.lessThanOrEqualTo with
     | some g => if g ≠ 0 then jsLe s g else true
     | none => true
   | none => true)

/-- Outcome of the schema layer's `regex(pattern)` check (absent or
invalid patterns add no check). -/
def zodPatternOk (pat : Option (String → Bool)) (s : String) : Bool :=
  match pat with
  | some p => p s
  | none => true

/-- Whether a string value passes the Zod field `buildZodSchema` builds
for a plain (non-date, non-checkbox, non-file) control: the chained
`min(1)` (required), `min(minLength)`, `max(maxLength)`, `email`,
`regex` checks and the numericality refinements, all conjunctive. -/
def zodStringPasses (v : Validations) (s : String) : Bool :=
  (!v.required || decide (1 ≤ s.length)) &&
  zodMinLenOk v.minLength s &&
  zodMaxLenOk v.maxLength s &&
  (!v.email || zodEmailTest s) &&
  zodPatternOk v.pattern s &&
  zodNumericalityOk v.numericality s

/-- The message of the schema layer's required check,
`field.min(1, msgs.required || "This field is required")`. -/
def zodRequiredMessage (v : Validations) : Option String :=
  if v.required then some (jsOrS v.errorMessages.required "This field is required") else none

/-- The issues Zod reports for a date-range control's `{from, to}`
object: each member field carries an unconditional non-emptiness
refinement, and the object-level refinement — which runs only when both
fields parse — compares the strings and attributes its issue to the
`"to"` path. -/
def dateRangeIssues (v : Validations) (dFrom dTo : String) :
    List (List String × String) :=
  let fieldIssues :=
    (if dFrom = "" then
      [(["from"], jsOrS v.errorMessages.required "Start date is required")] else []) ++
    (if dTo = "" then
      [(["to"], jsOrS v.errorMessages.required "End date is required")] else [])
  if fieldIssues.isEmpty then
    if dFrom = "" || dTo = "" || strLe dFrom dTo then []
    else [(["to"], jsOrS v.errorMessages.range "End date must be after start date")]
  else fieldIssues

/-- Whether a date-range pair passes validation. -/
def dateRangePasses (v : Validations) (dFrom dTo : String) : Bool :=
  (dateRangeIssues v dFrom dTo).isEmpty

/-! ## Auxiliary predicates and concrete fixtures -/

/-- Whether a transport outcome counts as a successful attempt
(`result.success` of the attempt's envelope). -/
def fetchOk : FetchOutcome → Bool
  | .resp s _ => statusOk s
  | .raise _ => false

/-- The well-formedness of a resolved envelope: a success carries data
and no error; a failure carries an error message. -/
def envelopeShape (r : ApiResult) : Prop :=
  (r.success = true ∧ r.error = none ∧ r.data.isSome = true) ∨
    (r.success = false ∧ r.error.isSome = true)

/-- The `getUser` endpoint of the test catalog: GET with request schema
`{ id: { required, valueType: integer } }`. -/
def getUserEp : ApiEndpointConfig :=
  { endpointName := "getUser", url := "/api/user", method := "GET",
    requiresAuth := some false, retry := some 0, mock := some false, cache := some false,
    requestSchema := some [("id", { required := true, valueType := some "integer" })] }

/-- The test catalog holding `getUser`. -/
def testConfig : ApiServiceConfig := { endpoints := [getUserEp] }

/-- The backing-store record for id 1. -/
def aliceData : JValue :=
  .obj [("id", .num 1), ("name", .str "Alice"), ("email", .str "alice@example.com")]

/-- A transport whose every attempt answers 200 with the id-1 record. -/
def netOkAlice : Nat → FetchOutcome := fun _ => .resp 200 aliceData

/-- A cache-enabled GET endpoint without a request schema. -/
def cacheEp : ApiEndpointConfig :=
  { endpointName := "g", url := "/g", method := "GET", cache := some true }

/-- The catalog holding the cache-enabled endpoint. -/
def cacheConfig : ApiServiceConfig := { endpoints := [cacheEp] }

/-- A transport answering 200 with the falsy JSON body `false`. -/
def netFalse : Nat → FetchOutcome := fun _ => .resp 200 (.bool false)

/-- A transport answering 200 with a truthy object body. -/
def netTrue : Nat → FetchOutcome := fun _ => .resp 200 (.obj [("x", .num 1)])

/-- A mock-enabled endpoint. -/
def mockEp : ApiEndpointConfig :=
  { endpointName := "m", url := "/m", method := "POST", mock := some true }

/-- The catalog holding the mock-enabled endpoint. -/
def mockConfig : ApiServiceConfig := { endpoints := [mockEp] }

/-- An endpoint configured with `retry: 2`. -/
def retryEp : ApiEndpointConfig :=
  { endpointName := "r", url := "/r", method := "GET", retry := some 2 }

/-- The catalog holding the retry endpoint. -/
def retryConfig : ApiServiceConfig := { endpoints := [retryEp] }

/-- The validation block with both `email` and `pattern` set (the
pattern `.*`, matching every string). -/
def cexBlock : Validations := { email := true, pattern := some (fun _ => true) }

/-- The validation block setting only `email`. -/
def emailOnlyBlock : Validations := { email := true }

/-! ## Helper lemmas about the request pipeline -/

theorem jLookup_cacheInsert_self (c : CacheT) (k : String) (v : JValue) :
    jLookup (cacheInsert c k v) k = some v := by
  induction c with
  | nil => simp [cacheInsert, jLookup]
  | cons h t ih =>
    obtain ⟨k', w⟩ := h
    by_cases hk : k' = k
    · simp [cacheInsert, hk, jLookup]
    · simp [cacheInsert, hk, jLookup, ih]

theorem fetchEnvelope_success (o : FetchOutcome) :
    (fetchEnvelope o).success = fetchOk o := by
  cases o with
  | resp s d =>
    by_cases h : statusOk s = true <;> simp [fetchEnvelope, fetchOk, h]
  | raise m => rfl

theorem doFetch_fst (cond : Bool) (key : String) (net : Nat → FetchOutcome)
    (i : Nat) (c : CacheT) :
    (doFetch cond key net i c).1 = fetchEnvelope (net i) := by
  unfold doFetch fetchEnvelope
  cases net i with
  | resp s d => by_cases h : statusOk s = true <;> simp [h]
  | raise m => rfl

theorem doFetch_snd_of_fail (cond : Bool) (key : String) (net : Nat → FetchOutcome)
    (i : Nat) (c : CacheT) (h : fetchOk (net i) = false) :
    (doFetch cond key net i c).2 = c := by
  unfold doFetch
  cases hn : net i with
  | resp s d =>
    have : statusOk s = false := by rw [hn] at h; simpa [fetchOk] using h
    simp [this]
  | raise m => rfl

theorem doFetch_eq_of_fail (cond : Bool) (key : String) (net : Nat → FetchOutcome)
    (i : Nat) (c : CacheT) (h : fetchOk (net i) = false) :
    doFetch cond key net i c = (fetchEnvelope (net i), c) := by
  have h1 := doFetch_fst cond key net i c
  have h2 := doFetch_snd_of_fail cond key net i c h
  exact Prod.ext h1 h2

theorem retryRequest_succ (cond : Bool) (key : String) (net : Nat → FetchOutcome)
    (r i : Nat) (last : ApiResult) (c : CacheT) :
    retryRequest cond key net (r + 1) i last c =
      (if (doFetch cond key net i c).1.success then
        ⟨(doFetch cond key net i c).1, i + 1, (doFetch cond key net i c).2⟩
      else
        retryRequest cond key net r (i + 1) (doFetch cond key net i c).1
          (doFetch cond key net i c).2) := rfl

theorem retryRequest_all_fail (cond : Bool) (key : String) (net : Nat → FetchOutcome) :
    ∀ (r i : Nat) (last : ApiResult) (c : CacheT), 0 < r →
    (∀ j, j < r → fetchOk (net (i + j)) = false) →
    retryRequest cond key net r i last c = ⟨fetchEnvelope (net (i + (r - 1))), i + r, c⟩ := by
  intro r
  induction r with
  | zero => intro i last c h; omega
  | succ r ih =>
    intro i last c _ hf
    have h0 : fetchOk (net i) = false := by simpa using hf 0 (by omega)
    have hd := doFetch_eq_of_fail cond key net i c h0
    have hs : (fetchEnvelope (net i)).success = false := by
      rw [fetchEnvelope_success, h0]
    rw [retryRequest_succ, hd]
    simp only [hs, Bool.false_eq_true, if_false]
    cases r with
    | zero => simp [retryRequest]
    | succ r' =>
      have := ih (i + 1) (fetchEnvelope (net i)) c (by omega)
        (fun j hj => by
          have := hf (j + 1) (by omega)
          simpa [Nat.add_assoc, Nat.add_comm 1 j] using this)
      rw [this]
      have e1 : i + 1 + (r' + 1 - 1) = i + (r' + 1 + 1 - 1) := by omega
      have e2 : i + 1 + (r' + 1) = i + (r' + 1 + 1) := by omega
      rw [e1, e2]

theorem retryRequest_first_success (cond : Bool) (key : String) (net : Nat → FetchOutcome) :
    ∀ (k r i : Nat) (last : ApiResult) (c : CacheT), k < r →
    (∀ j, j < k → fetchOk (net (i + j)) = false) →
    fetchOk (net (i + k)) = true →
    retryRequest cond key net r i last c =
      ⟨fetchEnvelope (net (i + k)), i + k + 1, (doFetch cond key net (i + k) c).2⟩ := by
  intro k
  induction k with
  | zero =>
    intro r i last c hr _ hs
    cases r with
    | zero => omega
    | succ r' =>
      have hfst := doFetch_fst cond key net i c
      have hsucc : (doFetch cond key net i c).1.success = true := by
        rw [hfst, fetchEnvelope_success]; simpa using hs
      rw [retryRequest_succ]
      simp only [hsucc, if_true]
      simp [hfst]
  | succ k' ih =>
    intro r i last c hr hf hs
    cases r with
    | zero => omega
    | succ r' =>
      have h0 : fetchOk (net i) = false := by simpa using hf 0 (by omega)
      have hd := doFetch_eq_of_fail cond key net i c h0
      have hsf : (fetchEnvelope (net i)).success = false := by
        rw [fetchEnvelope_success, h0]
      rw [retryRequest_succ, hd]
      simp only [hsf, Bool.false_eq_true, if_false]
      have := ih r' (i + 1) (fetchEnvelope (net i)) c (by omega)
        (fun j hj => by
          have := hf (j + 1) (by omega)
          simpa [Nat.add_assoc, Nat.add_comm 1 j] using this)
        (by
          have : i + 1 + k' = i + (k' + 1) := by omega
          rw [this]; exact hs)
      rw [this]
      have e1 : i + 1 + k' = i + (k' + 1) := by omega
      rw [e1]

theorem networkStage_all_fail (cond : Bool) (key : String) (net : Nat → FetchOutcome)
    (N : Nat) (cache : CacheT) (hf : ∀ i, i ≤ N → fetchOk (net i) = false) :
    networkStage cond key net (some N) cache = ⟨fetchEnvelope (net N), N + 1, cache⟩ := by
  unfold networkStage
  by_cases hN : N = 0
  · subst hN
    have hd := doFetch_eq_of_fail cond key net 0 cache (hf 0 (by omega))
    simp [hd]
  · simp only [hN, if_false]
    have := retryRequest_all_fail cond key net (N + 1) 0
      { success := false, error := some "Unknown error" } cache (by omega)
      (fun j hj => by simpa using hf j (by omega))
    rw [this]
    simp

theorem networkStage_first_success (cond : Bool) (key : String) (net : Nat → FetchOutcome)
    (N k : Nat) (cache : CacheT) (hk : k ≤ N)
    (hf : ∀ i, i < k → fetchOk (net i) = false) (hs : fetchOk (net k) = true) :
    networkStage cond key net (some N) cache =
      ⟨fetchEnvelope (net k), k + 1, (doFetch cond key net k cache).2⟩ := by
  unfold networkStage
  by_cases hN : N = 0
  · subst hN
    have hk0 : k = 0 := by omega
    subst hk0
    have hfst := doFetch_fst cond key net 0 cache
    rw [show (doFetch cond key net 0 cache) = ((doFetch cond key net 0 cache).1, (doFetch cond key net 0 cache).2) from rfl]
    simp [hfst]
  · simp only [hN, if_false]
    have := retryRequest_first_success cond key net k (N + 1) 0
      { success := false, error := some "Unknown error" } cache (by omega)
      (fun j hj => by simpa using hf j hj) (by simpa using hs)
    rw [this]
    simp

theorem networkStage_none (cond : Bool) (key : String) (net : Nat → FetchOutcome)
    (cache : CacheT) :
    networkStage cond key net none cache =
      ⟨fetchEnvelope (net 0), 1, (doFetch cond key net 0 cache).2⟩ := by
  unfold networkStage
  rw [show (doFetch cond key net 0 cache) = ((doFetch cond key net 0 cache).1, (doFetch cond key net 0 cache).2) from rfl]
  simp [doFetch_fst]

theorem networkStage_success0 (cond : Bool) (key : String) (net : Nat → FetchOutcome)
    (retry : Option Nat) (cache : CacheT) (hs : fetchOk (net 0) = true) :
    networkStage cond key net retry cache =
      ⟨fetchEnvelope (net 0), 1, (doFetch cond key net 0 cache).2⟩ := by
  cases retry with
  | none => exact networkStage_none cond key net cache
  | some n =>
    exact networkStage_first_success cond key net n 0 cache (by omega)
      (fun i hi => by omega) hs

theorem retryRequest_attempts_lb (cond : Bool) (key : String) (net : Nat → FetchOutcome) :
    ∀ (r i : Nat) (last : ApiResult) (c : CacheT), 0 < r →
    i + 1 ≤ (retryRequest cond key net r i last c).attempts := by
  intro r
  induction r with
  | zero => intro i last c h; omega
  | succ r ih =>
    intro i last c _
    rw [retryRequest_succ]
    by_cases h : (doFetch cond key net i c).1.success = true
    · simp [h]
    · simp only [h, if_false, Bool.false_eq_true]
      cases r with
      | zero => simp [retryRequest]
      | succ r' =>
        have := ih (i + 1) (doFetch cond key net i c).1 (doFetch cond key net i c).2 (by omega)
        omega

theorem networkStage_attempts_lb (cond : Bool) (key : String) (net : Nat → FetchOutcome)
    (retry : Option Nat) (cache : CacheT) :
    1 ≤ (networkStage cond key net retry cache).attempts := by
  cases retry with
  | none => simp [networkStage]
  | some n =>
    by_cases hn : n = 0
    · simp [networkStage, hn]
    · have := retryRequest_attempts_lb cond key net (n + 1) 0
        { success := false, error := some "Unknown error" } cache (by omega)
      simpa [networkStage, hn] using this

theorem fetchEnvelope_shape (o : FetchOutcome) : envelopeShape (fetchEnvelope o) := by
  cases o with
  | resp s d =>
    by_cases h : statusOk s = true
    · left; simp [fetchEnvelope, h]
    · right; simp [fetchEnvelope, h]
  | raise m => right; simp [fetchEnvelope]

theorem retryRequest_shape (cond : Bool) (key : String) (net : Nat → FetchOutcome) :
    ∀ (r i : Nat) (last : ApiResult) (c : CacheT), envelopeShape last →
    envelopeShape (retryRequest cond key net r i last c).result := by
  intro r
  induction r with
  | zero => intro i last c h; exact h
  | succ r ih =>
    intro i last c h
    rw [retryRequest_succ]
    by_cases hsucc : (doFetch cond key net i c).1.success = true
    · simp only [hsucc, if_true]
      have := fetchEnvelope_shape (net i)
      rw [← doFetch_fst cond key net i c] at this
      exact this
    · simp only [hsucc, if_false, Bool.false_eq_true]
      apply ih
      have := fetchEnvelope_shape (net i)
      rw [← doFetch_fst cond key net i c] at this
      exact this

theorem networkStage_shape (cond : Bool) (key : String) (net : Nat → FetchOutcome)
    (retry : Option Nat) (cache : CacheT) :
    envelopeShape (networkStage cond key net retry cache).result := by
  cases retry with
  | none =>
    rw [networkStage_none]
    exact fetchEnvelope_shape (net 0)
  | some n =>
    by_cases hn : n = 0
    · subst hn
      have := fetchEnvelope_shape (net 0)
      rw [← doFetch_fst cond key net 0 cache] at this
      simpa [networkStage] using this
    · simp only [networkStage, hn, if_false]
      apply retryRequest_shape
      right
      simp

theorem one_le_length_of_ne (s : String) (h : s ≠ "") : 1 ≤ s.length := by
  cases s with
  | mk data =>
    cases data with
    | nil => exact absurd rfl h
    | cons c cs => simp [String.length]

theorem request_not_found (config : Option ApiServiceConfig) (cache : CacheT)
    (net : Nat → FetchOutcome) (name method : String) (payload : Option Payload)
    (options : Option ApiRequestOptions) (h : findEndpoint config name = none) :
    request config cache net name method payload options =
      ⟨{ success := false,
         error := some s!"Endpoint \"{name}\" not found in configuration" }, 0, cache⟩ := by
  unfold request
  rw [h]

theorem request_invalid (config : Option ApiServiceConfig) (cache : CacheT)
    (net : Nat → FetchOutcome) (name method : String) (payload : Option Payload)
    (options : Option ApiRequestOptions) (ep : ApiEndpointConfig)
    (h : findEndpoint config name = some ep)
    (hv : (validateData (payload.getD []) ep.requestSchema).1 = false) :
    request config cache net name method payload options =
      ⟨{ success := false,
         error := some ("Validation failed: " ++
           String.intercalate ", " (validateData (payload.getD []) ep.requestSchema).2) },
       0, cache⟩ := by
  unfold request
  rw [h]
  simp [hv]

theorem request_mock (config : Option ApiServiceConfig) (cache : CacheT)
    (net : Nat → FetchOutcome) (name method : String) (payload : Option Payload)
    (options : Option ApiRequestOptions) (ep : ApiEndpointConfig)
    (h : findEndpoint config name = some ep)
    (hv : (validateData (payload.getD []) ep.requestSchema).1 = true)
    (hm : mockCond options ep = true) :
    request config cache net name method payload options =
      ⟨{ success := true, data := some (mockData name payload) }, 0, cache⟩ := by
  unfold request
  rw [h]
  simp [hv, hm]

theorem request_cacheHit (config : Option ApiServiceConfig) (cache : CacheT)
    (net : Nat → FetchOutcome) (name method : String) (payload : Option Payload)
    (options : Option ApiRequestOptions) (ep : ApiEndpointConfig) (v : JValue)
    (h : findEndpoint config name = some ep)
    (hv : (validateData (payload.getD []) ep.requestSchema).1 = true)
    (hm : mockCond options ep = false)
    (hh : cacheHitValue cache (cacheCond options ep method) (cacheKey name payload) = some v) :
    request config cache net name method payload options =
      ⟨{ success := true, data := some v }, 0, cache⟩ := by
  unfold request
  rw [h]
  simp [hv, hm, hh]

theorem request_network (config : Option ApiServiceConfig) (cache : CacheT)
    (net : Nat → FetchOutcome) (name method : String) (payload : Option Payload)
    (options : Option ApiRequestOptions) (ep : ApiEndpointConfig)
    (h : findEndpoint config name = some ep)
    (hv : (validateData (payload.getD []) ep.requestSchema).1 = true)
    (hm : mockCond options ep = false)
    (hh : cacheHitValue cache (cacheCond options ep method) (cacheKey name payload) = none) :
    request config cache net name method payload options =
      networkStage (cacheCond options ep method) (cacheKey name payload) net ep.retry cache := by
  unfold request
  rw [h]
  simp [hv, hm, hh]

/-! ## Helper lemmas about the validator layers -/

theorem minLen_slot (minL : Option Int) (msg : Option String) (s : String) :
    ruleMinLenOk (buildMinLenRule minL msg) s = zodMinLenOk minL s := by
  rcases minL with _ | n
  · rfl
  · by_cases hn : n > 0 <;> simp [buildMinLenRule, ruleMinLenOk, zodMinLenOk, hn]

theorem maxLen_slot (maxL : Option Int) (msg : Option String) (s : String) :
    ruleMaxLenOk (buildMaxLenRule maxL msg) s = zodMaxLenOk maxL s := by
  rcases maxL with _ | n
  · rfl
  · by_cases hn : n > 0 <;> simp [buildMaxLenRule, ruleMaxLenOk, zodMaxLenOk, hn]

theorem pattern_slot_no_email (pat : Option (String → Bool)) (msgE msgP : Option String)
    (s : String) :
    rulePatternOk (buildPatternRule false pat msgE msgP) s = zodPatternOk pat s := by
  rcases pat with _ | p <;> simp [buildPatternRule, rulePatternOk, zodPatternOk]

theorem validate_slot (nume : Option Numericality) (m1 m2 m3 : Option String) (s : String) :
    ruleValidateOk (buildOnlyIntegerRule nume m1) (buildGteRule nume m2)
      (buildLteRule nume m3) s = zodNumericalityOk nume s := by
  rcases nume with _ | ⟨oi, g, l⟩
  · rfl
  · rcases oi <;> rcases g with _ | gv <;> rcases l with _ | lv <;>
      simp only [buildOnlyIntegerRule, buildGteRule, buildLteRule, ruleValidateOk,
        zodNumericalityOk] <;>
      split_ifs <;> simp_all

/-! ## Claims -/

/-- C2: For every API request the checks run in this order — endpoint
existence, then request-payload schema validation, then mock
short-circuit, then cache short-circuit (only under the GET-guarded
cache condition), then network dispatch (each earlier failing or
short-circuiting check resolves the call with zero network attempts,
and a call that reaches the network performs at least one attempt); in
particular `getUser` (GET, request schema `{id: required integer}`)
called with `{id: 1}` against a 200-responding store resolves to
`{success: true, data, status: 200}`, and called with `{}` resolves to
`{success: false, error: "Validation failed: id is required"}` with no
network attempt. -/
theorem c2_dispatch_order :
    (∀ config cache net name method payload options,
      findEndpoint config name = none →
      request config cache net name method payload options =
        ⟨{ success := false,
           error := some s!"Endpoint \"{name}\" not found in configuration" }, 0, cache⟩)
    ∧ (∀ config cache net name method payload options ep,
      findEndpoint config name = some ep →
      (validateData (payload.getD []) ep.requestSchema).1 = false →
      request config cache net name method payload options =
        ⟨{ success := false,
           error := some ("Validation failed: " ++ String.intercalate ", "
             (validateData (payload.getD []) ep.requestSchema).2) }, 0, cache⟩)
    ∧ (∀ config cache net name method payload options ep,
      findEndpoint config name = some ep →
      (validateData (payload.getD []) ep.requestSchema).1 = true →
      mockCond options ep = true →
      request config cache net name method payload options =
        ⟨{ success := true, data := some (mockData name payload) }, 0, cache⟩)
    ∧ (∀ config cache net name method payload options ep v,
      findEndpoint config name = some ep →
      (validateData (payload.getD []) ep.requestSchema).1 = true →
      mockCond options ep = false →
      cacheHitValue cache (cacheCond options ep method) (cacheKey name payload) = some v →
      request config cache net name method payload options =
        ⟨{ success := true, data := some v }, 0, cache⟩)
    ∧ (∀ config cache net name method payload options ep,
      findEndpoint config name = some ep →
      (validateData (payload.getD []) ep.requestSchema).1 = true →
      mockCond options ep = false →
      cacheHitValue cache (cacheCond options ep method) (cacheKey name payload) = none →
      1 ≤ (request config cache net name method payload options).attempts)
    ∧ request (some testConfig) [] netOkAlice "getUser" "GET"
        (some [("id", .num 1)]) none =
        ⟨{ success := true, data := some aliceData, status := some 200 }, 1, []⟩
    ∧ (∀ net, request (some testConfig) [] net "getUser" "GET" (some []) none =
        ⟨{ success := false, error := some "Validation failed: id is required" }, 0, []⟩) := by
  refine ⟨?_, ?_, ?_, ?_, ?_, ?_, ?_⟩
  · intro config cache net name method payload options h
    exact request_not_found config cache net name method payload options h
  · intro config cache net name method payload options ep h hv
    exact request_invalid config cache net name method payload options ep h
      (by simp [hv])
  · intro config cache net name method payload options ep h hv hm
    exact request_mock config cache net name method payload options ep h hv hm
  · intro config cache net name method payload options ep v h hv hm hh
    exact request_cacheHit config cache net name method payload options ep v h hv hm hh
  · intro config cache net name method payload options ep h hv hm hh
    rw [request_network config cache net name method payload options ep h hv hm hh]
    exact networkStage_attempts_lb _ _ _ _ _
  · rfl
  · intro net
    rfl

/-- C2 witness: the endpoint-existence check at a concrete missing
endpoint, and the validation short-circuit of the concrete `getUser`
scenario. -/
theorem c2_dispatch_order_witness :
    request none [] (fun _ => .raise "down") "missing" "GET" none none =
      ⟨{ success := false,
         error := some "Endpoint \"missing\" not found in configuration" }, 0, []⟩ ∧
    request (some testConfig) [] (fun _ => .raise "down") "getUser" "GET" (some []) none =
      ⟨{ success := false, error := some "Validation failed: id is required" }, 0, []⟩ :=
  ⟨c2_dispatch_order.1 none [] (fun _ => .raise "down") "missing" "GET" none none rfl,
   (c2_dispatch_order.2.2.2.2.2.2) (fun _ => .raise "down")⟩

/-- C3: For every request reaching the network on an endpoint with
`retry = N`: if all attempts fail exactly `N + 1` attempts occur and
the envelope of the last one is returned; if the attempt of index
`k ≤ N` is the first to succeed, exactly `k + 1` attempts occur and its
success envelope is returned; and retry wraps only the network
dispatch — the validation, mock and cache-hit paths resolve with zero
attempts regardless of the retry configuration. -/
theorem c3_retry_semantics :
    (∀ config cache net name method payload options ep N,
      findEndpoint config name = some ep →
      (validateData (payload.getD []) ep.requestSchema).1 = true →
      mockCond options ep = false →
      cacheHitValue cache (cacheCond options ep method) (cacheKey name payload) = none →
      ep.retry = some N →
      ((∀ i, i ≤ N → fetchOk (net i) = false) →
        (request config cache net name method payload options).result =
          fetchEnvelope (net N) ∧
        (request config cache net name method payload options).attempts = N + 1)
      ∧ (∀ k, k ≤ N → (∀ i, i < k → fetchOk (net i) = false) →
          fetchOk (net k) = true →
        (request config cache net name method payload options).result =
          fetchEnvelope (net k) ∧
        (request config cache net name method payload options).attempts = k + 1))
    ∧ (∀ config cache net name method payload options ep,
      findEndpoint config name = some ep →
      (validateData (payload.getD []) ep.requestSchema).1 = false →
      (request config cache net name method payload options).attempts = 0)
    ∧ (∀ config cache net name method payload options ep,
      findEndpoint config name = some ep →
      (validateData (payload.getD []) ep.requestSchema).1 = true →
      mockCond options ep = true →
      (request config cache net name method payload options).attempts = 0)
    ∧ (∀ config cache net name method payload options ep v,
      findEndpoint config name = some ep →
      (validateData (payload.getD []) ep.requestSchema).1 = true →
      mockCond options ep = false →
      cacheHitValue cache (cacheCond options ep method) (cacheKey name payload) = some v →
      (request config cache net name method payload options).attempts = 0) := by
  refine ⟨?_, ?_, ?_, ?_⟩
  · intro config cache net name method payload options ep N h hv hm hh hr
    rw [request_network config cache net name method payload options ep h hv hm hh, hr]
    constructor
    · intro hf
      rw [networkStage_all_fail _ _ _ _ _ hf]
      exact ⟨rfl, rfl⟩
    · intro k hk hf hs
      rw [networkStage_first_success _ _ _ _ _ _ hk hf hs]
      exact ⟨rfl, rfl⟩
  · intro config cache net name method payload options ep h hv
    rw [request_invalid config cache net name method payload options ep h (by simp [hv])]
  · intro config cache net name method payload options ep h hv hm
    rw [request_mock config cache net name method payload options ep h hv hm]
  · intro config cache net name method payload options ep v h hv hm hh
    rw [request_cacheHit config cache net name method payload options ep v h hv hm hh]

/-- C3 witness: the endpoint configured with `retry: 2` and an
always-throwing transport performs exactly three attempts and resolves
with the last failure. -/
theorem c3_retry_semantics_witness :
    (request (some retryConfig) [] (fun _ => .raise "boom") "r" "GET" none none).result =
      fetchEnvelope (.raise "boom") ∧
    (request (some retryConfig) [] (fun _ => .raise "boom") "r" "GET" none none).attempts = 3 :=
  ((c3_retry_semantics.1 (some retryConfig) [] (fun _ => .raise "boom") "r" "GET"
      none none retryEp 2 rfl rfl rfl rfl rfl).1 (fun _ _ => rfl))

/-- C4: Every API call resolves to exactly one well-formed result
envelope — a success carrying data and no error, or a failure carrying
an error message — for every configuration, cache state, transport
behaviour, endpoint name, method, payload and options argument (the
model's `request` is a total function, mirroring the try/catch
boundary that converts thrown transport errors into envelopes). -/
theorem c4_envelope_totality (config : Option ApiServiceConfig) (cache : CacheT)
    (net : Nat → FetchOutcome) (name method : String) (payload : Option Payload)
    (options : Option ApiRequestOptions) :
    envelopeShape (request config cache net name method payload options).result := by
  cases h : findEndpoint config name with
  | none =>
    rw [request_not_found config cache net name method payload options h]
    right
    simp
  | some ep =>
    by_cases hv : (validateData (payload.getD []) ep.requestSchema).1 = true
    · by_cases hm : mockCond options ep = true
      · rw [request_mock config cache net name method payload options ep h hv hm]
        left
        simp
      · replace hm : mockCond options ep = false := by
          simpa using hm
        cases hh : cacheHitValue cache (cacheCond options ep method) (cacheKey name payload) with
        | some v =>
          rw [request_cacheHit config cache net name method payload options ep v h hv hm hh]
          left
          simp
        | none =>
          rw [request_network config cache net name method payload options ep h hv hm hh]
          exact networkStage_shape _ _ _ _ _
    · replace hv : (validateData (payload.getD []) ep.requestSchema).1 = false := by
        simpa using hv
      rw [request_invalid config cache net name method payload options ep h hv]
      right
      simp

/-- C5 counterexample: a cache-enabled GET endpoint whose transport
answers 200 with the falsy JSON body `false`.  The first call succeeds
and stores the value, yet the second call with the identical payload
performs a network attempt again (attempts = 1, not 0): the truthy
cache-hit test `if (apiCache[cacheKey])` misses on the falsy cached
value, refuting the claim as stated. -/
theorem c5_cached_get_counterexample :
    (request (some cacheConfig) [] netFalse "g" "GET" (some []) none).result.success = true ∧
    (request (some cacheConfig)
        (request (some cacheConfig) [] netFalse "g" "GET" (some []) none).cache
        netFalse "g" "GET" (some []) none).attempts = 1 :=
  ⟨rfl, rfl⟩

/-- C5 (amended): for every GET request with caching enabled, if a
first call succeeds with a truthy data object, a second call with the
same endpoint name and JSON-identical payload returns a success
envelope carrying the same data object with zero network attempts; for
falsy response data (null, false, 0 or the empty string) the truthy
cache-hit test misses and the request is dispatched again. -/
theorem c5_cached_get_amended (config : Option ApiServiceConfig) (cache : CacheT)
    (net net2 : Nat → FetchOutcome) (name : String) (payload : Option Payload)
    (options : Option ApiRequestOptions) (ep : ApiEndpointConfig) (s : Nat) (d : JValue)
    (hep : findEndpoint config name = some ep)
    (hv : (validateData (payload.getD []) ep.requestSchema).1 = true)
    (hm : mockCond options ep = false)
    (hc : cacheCond options ep "GET" = true)
    (hmiss : jLookup cache (cacheKey name payload) = none)
    (hnet : net 0 = .resp s d) (hok : statusOk s = true) (htr : d.truthy = true) :
    (request config cache net name "GET" payload options).result =
      { success := true, data := some d, status := some s } ∧
    (request config cache net name "GET" payload options).attempts = 1 ∧
    (request config cache net name "GET" payload options).cache =
      cacheInsert cache (cacheKey name payload) d ∧
    request config (request config cache net name "GET" payload options).cache
        net2 name "GET" payload options =
      ⟨{ success := true, data := some d }, 0,
       cacheInsert cache (cacheKey name payload) d⟩ := by
  have hh : cacheHitValue cache (cacheCond options ep "GET") (cacheKey name payload) = none := by
    simp [cacheHitValue, hc, hmiss]
  have hfok : fetchOk (net 0) = true := by
    rw [hnet]
    simpa [fetchOk] using hok
  have hreq : request config cache net name "GET" payload options =
      ⟨fetchEnvelope (net 0), 1, (doFetch (cacheCond options ep "GET")
        (cacheKey name payload) net 0 cache).2⟩ := by
    rw [request_network config cache net name "GET" payload options ep hep hv hm hh]
    exact networkStage_success0 _ _ _ _ _ hfok
  have henv : fetchEnvelope (net 0) =
      { success := true, data := some d, status := some s } := by
    rw [hnet]
    simp [fetchEnvelope, hok]
  have hsnd : (doFetch (cacheCond options ep "GET") (cacheKey name payload) net 0 cache).2 =
      cacheInsert cache (cacheKey name payload) d := by
    rw [show doFetch (cacheCond options ep "GET") (cacheKey name payload) net 0 cache =
        (match net 0 with
         | .resp s d =>
           if statusOk s then
             ({ success := true, data := some d, status := some s },
              if cacheCond options ep "GET" then
                cacheInsert cache (cacheKey name payload) d
              else cache)
           else
             ({ success := false,
                error := some (jsOrS (respMessage d) s!"API error: {s}"),
                status := some s }, cache)
         | .raise m => ({ success := false, error := some m }, cache)) from rfl]
    rw [hnet]
    simp [hok, hc]
  refine ⟨?_, ?_, ?_, ?_⟩
  · rw [hreq, henv]
  · rw [hreq]
  · rw [hreq]
    exact hsnd
  · have hcache1 : (request config cache net name "GET" payload options).cache =
        cacheInsert cache (cacheKey name payload) d := by
      rw [hreq]; exact hsnd
    rw [hcache1]
    have hh2 : cacheHitValue (cacheInsert cache (cacheKey name payload) d)
        (cacheCond options ep "GET") (cacheKey name payload) = some d := by
      simp [cacheHitValue, hc, jLookup_cacheInsert_self, htr]
    exact request_cacheHit config _ net2 name "GET" payload options ep d hep hv hm hh2

/-- C5 witness: the amended statement at the concrete cache-enabled
endpoint with a truthy 200 response — the second call answers from the
cache with zero attempts. -/
theorem c5_cached_get_amended_witness :
    (request (some cacheConfig) [] netTrue "g" "GET" (some []) none).result =
      { success := true, data := some (.obj [("x", .num 1)]), status := some 200 } ∧
    (request (some cacheConfig) [] netTrue "g" "GET" (some []) none).attempts = 1 ∧
    (request (some cacheConfig) [] netTrue "g" "GET" (some []) none).cache =
      cacheInsert [] (cacheKey "g" (some [])) (.obj [("x", .num 1)]) ∧
    request (some cacheConfig)
        (request (some cacheConfig) [] netTrue "g" "GET" (some []) none).cache
        netTrue "g" "GET" (some []) none =
      ⟨{ success := true, data := some (.obj [("x", .num 1)]) }, 0,
       cacheInsert [] (cacheKey "g" (some [])) (.obj [("x", .num 1)])⟩ :=
  c5_cached_get_amended (some cacheConfig) [] netTrue netTrue "g" (some []) none
    cacheEp 200 (.obj [("x", .num 1)]) rfl rfl rfl rfl rfl rfl rfl rfl

/-- C6: For every mock-enabled endpoint (endpoint `mock` flag or
per-call `useMock`) and every payload P passing the request schema, the
call resolves to a success envelope whose data is
`{mock: true, endpoint: name, payload: P}` with zero network
attempts. -/
theorem c6_mock_roundtrip (config : Option ApiServiceConfig) (cache : CacheT)
    (net : Nat → FetchOutcome) (name method : String) (payload : Payload)
    (options : Option ApiRequestOptions) (ep : ApiEndpointConfig)
    (hep : findEndpoint config name = some ep)
    (hv : (validateData payload ep.requestSchema).1 = true)
    (hm : mockCond options ep = true) :
    request config cache net name method (some payload) options =
      ⟨{ success := true,
         data := some (.obj [("mock", .bool true), ("endpoint", .str name),
                             ("payload", .obj payload)]) }, 0, cache⟩ :=
  request_mock config cache net name method (some payload) options ep hep hv hm

/-- C6 witness: the mock-enabled endpoint called with a concrete
payload returns the mock echo object and performs no attempt. -/
theorem c6_mock_roundtrip_witness :
    request (some mockConfig) [] (fun _ => .raise "down") "m" "POST"
        (some [("a", .str "b")]) none =
      ⟨{ success := true,
         data := some (.obj [("mock", .bool true), ("endpoint", .str "m"),
                             ("payload", .obj [("a", .str "b")])]) }, 0, []⟩ :=
  c6_mock_roundtrip (some mockConfig) [] (fun _ => .raise "down") "m" "POST"
    [("a", .str "b")] none mockEp rfl rfl rfl

/-- C9: In the request-payload validator, a schema field declared with
`valueType: "integer"` accepts every JS number value — including
non-integral ones such as 1.5 — and the "must be an integer" error is
produced exactly when the value is present (not `undefined`) and not of
number type; in particular an absent value never produces it.  (Stated
for fields without a nested `validations` block, which is where the
integer check lives.) -/
theorem c9_integer_accepts_numbers (key : String) (rules : ApiFieldRules)
    (hvt : rules.valueType = some "integer") (hval : rules.validations = none) :
    (∀ q : Rat, fieldErrors key rules (some (.num q)) = [])
    ∧ (∀ v : JValue, v.isNum = false →
        (key ++ " must be an integer") ∈ fieldErrors key rules (some v))
    ∧ (key ++ " must be an integer") ∉ fieldErrors key rules none := by
  refine ⟨?_, ?_, ?_⟩
  · intro q
    simp [fieldErrors, hvt, hval, isMissing, JValue.isNum]
  · intro v hnum
    simp [fieldErrors, hvt, hval, hnum]
  · intro hmem
    by_cases hr : rules.required = true
    · have : fieldErrors key rules none = [key ++ " is required"] := by
        simp [fieldErrors, hvt, hval, isMissing, hr, jsOrS]
      rw [this] at hmem
      simp at hmem
      have hlen := congrArg String.length hmem
      rw [String.length_append, String.length_append] at hlen
      have h1 : (" must be an integer").length = 19 := rfl
      have h2 : (" is required").length = 12 := rfl
      omega
    · have hr' : rules.required = false := by simpa using hr
      have : fieldErrors key rules none = [] := by
        simp [fieldErrors, hvt, hval, isMissing, hr']
      rw [this] at hmem
      simp at hmem

/-- C9 witness: the concrete `id` field with `valueType: "integer"`
accepts the non-integral number 1.5, flags the string value `"x"`, and
produces no integer error when the value is absent. -/
theorem c9_integer_accepts_numbers_witness :
    fieldErrors "id" { required := true, valueType := some "integer" }
      (some (.num (3 / 2))) = [] ∧
    ("id must be an integer") ∈ fieldErrors "id"
      { required := true, valueType := some "integer" } (some (.str "x")) ∧
    ("id must be an integer") ∉ fieldErrors "id"
      { required := true, valueType := some "integer" } none := by
  have h := c9_integer_accepts_numbers "id"
    { required := true, valueType := some "integer" } rfl rfl
  exact ⟨h.1 (3 / 2), h.2.1 (.str "x") rfl, h.2.2⟩

/-- C10: The per-call options are OR-ed with the endpoint flags:
`useMock: true` mocks the call whatever the endpoint's `mock` flag is;
an endpoint-level `mock: true` mocks the call whatever the options say
(so passing `useMock: false` or omitting it never disables it); and the
same holds for `useCache`/`cache` on GET cache hits. -/
theorem c10_per_call_flag_or :
    (∀ config cache net name method payload ep u,
      findEndpoint config name = some ep →
      (validateData (payload.getD []) ep.requestSchema).1 = true →
      request config cache net name method payload
          (some { useMock := some true, useCache := u }) =
        ⟨{ success := true, data := some (mockData name payload) }, 0, cache⟩)
    ∧ (∀ config cache net name method payload options ep,
      findEndpoint config name = some ep →
      (validateData (payload.getD []) ep.requestSchema).1 = true →
      ep.mock = some true →
      request config cache net name method payload options =
        ⟨{ success := true, data := some (mockData name payload) }, 0, cache⟩)
    ∧ (∀ config cache net name payload options ep v,
      findEndpoint config name = some ep →
      (validateData (payload.getD []) ep.requestSchema).1 = true →
      mockCond options ep = false →
      optFlag options (·.useCache) = true →
      jLookup cache (cacheKey name payload) = some v →
      v.truthy = true →
      request config cache net name "GET" payload options =
        ⟨{ success := true, data := some v }, 0, cache⟩)
    ∧ (∀ config cache net name payload options ep v,
      findEndpoint config name = some ep →
      (validateData (payload.getD []) ep.requestSchema).1 = true →
      mockCond options ep = false →
      ep.cache = some true →
      jLookup cache (cacheKey name payload) = some v →
      v.truthy = true →
      request config cache net name "GET" payload options =
        ⟨{ success := true, data := some v }, 0, cache⟩) := by
  refine ⟨?_, ?_, ?_, ?_⟩
  · intro config cache net name method payload ep u h hv
    exact request_mock config cache net name method payload _ ep h hv
      (by simp [mockCond, optFlag])
  · intro config cache net name method payload options ep h hv hm
    exact request_mock config cache net name method payload options ep h hv
      (by simp [mockCond, hm])
  · intro config cache net name payload options ep v h hv hm hu hl htr
    exact request_cacheHit config cache net name "GET" payload options ep v h hv hm
      (by simp [cacheHitValue, cacheCond, hu, hl, htr])
  · intro config cache net name payload options ep v h hv hm hc hl htr
    exact request_cacheHit config cache net name "GET" payload options ep v h hv hm
      (by simp [cacheHitValue, cacheCond, hc, hl, htr])

/-- C10 witness: `useMock: true` mocks the concrete `getUser` endpoint
even though it declares `mock: false`. -/
theorem c10_per_call_flag_or_witness :
    request (some testConfig) [] (fun _ => .raise "down") "getUser" "GET"
        (some [("id", .num 1)]) (some { useMock := some true }) =
      ⟨{ success := true, data := some (mockData "getUser" (some [("id", .num 1)])) },
       0, []⟩ :=
  c10_per_call_flag_or.1 (some testConfig) [] (fun _ => .raise "down") "getUser"
    "GET" (some [("id", .num 1)]) getUserEp none rfl rfl

/-- C1 counterexample: the two layers disagree in two separate ways.
First, a block setting both `email` and a catch-all `pattern` (`.*`):
on `"notanemail"` the rule object passes (the `pattern` assignment
overwrote the email regex in the single shared slot) while the Zod
field fails (it chains `email()` and `regex()`).  Second, a block
setting only `email`: on `"a@b..c"` the rule object passes (the
hand-rolled regex allows dots anywhere in the domain) while the Zod
field fails (`.email()` rejects empty domain labels), so even the
email rule alone is translated differently by the two layers. -/
theorem c1_validator_agreement_counterexample :
    (rhfPasses (getValidationRules cexBlock) "notanemail" = true ∧
      zodStringPasses cexBlock "notanemail" = false) ∧
    (rhfPasses (getValidationRules emailOnlyBlock) "a@b..c" = true ∧
      zodStringPasses emailOnlyBlock "a@b..c" = false) :=
  ⟨⟨by decide, by decide⟩, ⟨by decide, by decide⟩⟩

/-- C1 (amended): for string controls, the form-state rule object and
the Zod field agree on outcome for every non-empty input whenever the
block does not set `email`.  When `email` is set the layers diverge:
alone, because the rule layer's hand-rolled regex and Zod's `.email()`
accept different strings; combined with `pattern`, additionally
because the pattern assignment overwrites the email regex in the rule
object's single `pattern` slot.  On the empty input the rule layer
skips its non-required checks while the schema layer still applies
length/format checks. -/
theorem c1_validator_agreement_amended (v : Validations) (s : String)
    (hem : v.email = false) (hs : s ≠ "") :
    rhfPasses (getValidationRules v) s = zodStringPasses v s := by
  have hne : (decide (s = "")) = false := decide_eq_false hs
  have hlen : decide (1 ≤ s.length) = true := decide_eq_true (one_le_length_of_ne s hs)
  simp only [rhfPasses, zodStringPasses, getValidationRules, hem, hne, hlen, Bool.and_false,
    Bool.not_false, Bool.false_or, Bool.true_and, Bool.or_true, Bool.true_or]
  rw [minLen_slot, maxLen_slot, validate_slot, pattern_slot_no_email]
  simp [Bool.and_assoc]

/-- C1 witness: the amended agreement at a concrete required-minLength
block (no email rule) and the non-empty input `"ab"`. -/
theorem c1_validator_agreement_amended_witness :
    rhfPasses (getValidationRules { required := true, minLength := some 3 }) "ab" =
      zodStringPasses { required := true, minLength := some 3 } "ab" :=
  c1_validator_agreement_amended { required := true, minLength := some 3 } "ab"
    rfl (by decide)

/-- C7 counterexample: a date-range control that is not required still
rejects the pair with both dates empty — each member field of the Zod
object carries an unconditional non-emptiness refinement — refuting
the claim that emptiness is only an error when the control is
required. -/
theorem c7_date_range_counterexample :
    dateRangePasses {} "" "" = false := by decide

/-- C7 (amended): for every date-range control, when both dates are
non-empty the pair passes exactly when "to" is code-unit-wise ≥ "from"
and a reversed pair is rejected with the error path attributed to
"to" (so {from: 2024-01-01, to: 2024-01-10} passes and
{from: 2024-01-10, to: 2024-01-01} fails at path "to"); but emptiness
of either date is always a validation error, regardless of the
control's `required` flag. -/
theorem c7_date_range_amended (v : Validations) (dFrom dTo : String) :
    (dFrom ≠ "" → dTo ≠ "" →
      dateRangePasses v dFrom dTo = strLe dFrom dTo ∧
      (strLe dFrom dTo = false →
        (dateRangeIssues v dFrom dTo).map Prod.fst = [["to"]]))
    ∧ ((dFrom = "" ∨ dTo = "") → dateRangePasses v dFrom dTo = false)
    ∧ dateRangePasses v "2024-01-01" "2024-01-10" = true
    ∧ dateRangePasses v "2024-01-10" "2024-01-01" = false
    ∧ (dateRangeIssues v "2024-01-10" "2024-01-01").map Prod.fst = [["to"]] := by
  have key : ∀ (f t : String), f ≠ "" → t ≠ "" →
      dateRangePasses v f t = strLe f t ∧
      (strLe f t = false → (dateRangeIssues v f t).map Prod.fst = [["to"]]) := by
    intro f t hF hT
    constructor
    · cases hle : strLe f t <;> simp [dateRangePasses, dateRangeIssues, hF, hT, hle]
    · intro hnle
      simp [dateRangeIssues, hF, hT, hnle]
  refine ⟨key dFrom dTo, ?_, ?_, ?_, ?_⟩
  · intro h
    rcases h with h | h
    · subst h
      by_cases ht : dTo = "" <;> simp [dateRangePasses, dateRangeIssues, ht]
    · subst h
      by_cases hf : dFrom = "" <;> simp [dateRangePasses, dateRangeIssues, hf]
  · rw [(key "2024-01-01" "2024-01-10" (by decide) (by decide)).1]
    rfl
  · rw [(key "2024-01-10" "2024-01-01" (by decide) (by decide)).1]
    rfl
  · exact (key "2024-01-10" "2024-01-01" (by decide) (by decide)).2 rfl

/-- C7 witness: the amended statement at the concrete date pairs of the
claim, for a non-required control. -/
theorem c7_date_range_amended_witness :
    dateRangePasses {} "2024-01-01" "2024-01-10" = strLe "2024-01-01" "2024-01-10" ∧
    dateRangePasses {} "" "2024-01-01" = false :=
  ⟨((c7_date_range_amended {} "2024-01-01" "2024-01-10").1 (by decide) (by decide)).1,
   (c7_date_range_amended {} "" "2024-01-01").2.1 (Or.inl rfl)⟩

/-- C8 counterexample: with `required` set and no override, the schema
layer — the layer whose messages the resolver-driven form reports —
uses the default "This field is required" without the trailing period,
not the claimed "This field is required." -/
theorem c8_required_message_counterexample :
    zodRequiredMessage { required := true } ≠ some "This field is required." := by
  decide

/-- C8 (amended): for every string control whose validation block sets
`required`, the empty input is rejected by both layers; the reported
message equals the configured override when one is given (in both
layers), and otherwise the form-state rule object carries the default
"This field is required." (with period) while the schema layer used
for reporting carries "This field is required" (without period). -/
theorem c8_required_message_amended (v : Validations) (hreq : v.required = true) :
    rhfPasses (getValidationRules v) "" = false ∧
    zodStringPasses v "" = false ∧
    (getValidationRules v).required =
      some (jsOrS v.errorMessages.required "This field is required.") ∧
    zodRequiredMessage v = some (jsOrS v.errorMessages.required "This field is required") ∧
    (∀ m, v.errorMessages.required = some m → m ≠ "" →
      (getValidationRules v).required = some m ∧ zodRequiredMessage v = some m) := by
  refine ⟨?_, ?_, ?_, ?_, ?_⟩
  · simp [rhfPasses, getValidationRules, buildRequiredRule, hreq]
  · simp [zodStringPasses, hreq,
      show decide (1 ≤ ("" : String).length) = false from rfl]
  · simp [getValidationRules, buildRequiredRule, hreq]
  · simp [zodRequiredMessage, hreq]
  · intro m hm hne
    simp [getValidationRules, buildRequiredRule, zodRequiredMessage, hreq, hm, jsOrS, hne]

/-- C8 witness: the amended statement at a concrete required block
without an override, and the blocking of the empty input. -/
theorem c8_required_message_amended_witness :
    rhfPasses (getValidationRules { required := true }) "" = false ∧
    zodRequiredMessage { required := true } =
      some (jsOrS none "This field is required") :=
  ⟨(c8_required_message_amended { required := true } rfl).1,
   (c8_required_message_amended { required := true } rfl).2.2.2.1⟩

end ConexForm
